import Mathlib

/-!
Shallow embedding of django-mailinglist-registration.

The repository implements mailing-list registration with double opt-in:
`RegistrationManager` / `SubscriberManager` / the `Subscriber` and
`RegistrationProfile` models (src/mailinglist_registration/models.py),
the registration form (forms.py) and the view glue (views.py and the
default / simple / messages backends).

The database is modelled as explicit lists of records; Django ORM calls
(`get`, `filter`, `save`, `delete`, `create`) become total functions over
those lists.  Python exceptions that the source does not catch are made
explicit as an `exn` result constructor carrying the database state at
the moment the exception propagates.  Timestamps are integers; the
`MAILINGLIST_ACTIVATION_DAYS` setting is an integer delta added to
`date_joined` exactly as in `activation_key_expired`.
-/

/-- A Python value as returned by `SubscriberManager.deactivate_subscriber`
and consumed by the message-backend view: either a bool or a string. -/
inductive PyValue where
  | bool : Bool → PyValue
  | str : String → PyValue
deriving DecidableEq

/-- Python truthiness for the values we model. -/
def PyValue.truthy : PyValue → Bool
  | .bool b => b
  | .str s => !(s.data == [])

/-- Row of the `Subscriber` table (models.py lines 203-212).
`deactivation_key` is a `CharField` with no explicit default, hence the
empty string on a freshly constructed instance. -/
structure Subscriber where
  id : Nat
  email : String
  date_joined : Int
  is_active : Bool
  deactivation_key : String
deriving DecidableEq

/-- Row of the `RegistrationProfile` table (models.py lines 223-240);
`subscriber` is a unique foreign key, stored as `subscriber_id`. -/
structure RegistrationProfile where
  id : Nat
  subscriber_id : Nat
  activation_key : String
deriving DecidableEq

/-- The string constant `RegistrationProfile.ACTIVATED` (models.py line 237). -/
def RegistrationProfile.ACTIVATED : String := "ALREADY_ACTIVATED"

/-- Database state plus the outbox of emails sent (list of recipient
addresses, in send order). -/
structure DBState where
  subscribers : List Subscriber
  profiles : List RegistrationProfile
  outbox : List String
deriving DecidableEq

/-- Result of an operation: the Python return value or the name of an
uncaught exception, together with the database state afterwards and the
number of single-row `get` lookups that were executed. -/
inductive PyEx (α : Type) where
  | ok : α → PyEx α
  | exn : String → PyEx α
deriving DecidableEq

structure Outcome (α : Type) where
  res : PyEx α
  state : DBState
  lookups : Nat
deriving DecidableEq

/-- Result of a Django `Manager.get(...)` call. -/
inductive GetResult (α : Type) where
  | found : α → GetResult α
  | notFound : GetResult α
  | multiple : GetResult α
deriving DecidableEq

/-- Django `get`: exactly one matching row, `DoesNotExist`, or
`MultipleObjectsReturned`. -/
def qget {α : Type} (p : α → Bool) (l : List α) : GetResult α :=
  match l.filter p with
  | [] => .notFound
  | [a] => .found a
  | _ => .multiple

/-- Lowercase hex digit, the character class of `SHA1_RE` (models.py line 20). -/
def isLowerHexChar (c : Char) : Bool :=
  (('0' ≤ c) && (c ≤ '9')) || (('a' ≤ c) && (c ≤ 'f'))

/-- Exactly forty lowercase hex characters: the literal shape
`[a-f0-9]{40}` of `SHA1_RE`. -/
def isHex40L (cs : List Char) : Bool :=
  cs.length == 40 && cs.all isLowerHexChar

/-- `SHA1_RE.search(key)` for `SHA1_RE = re.compile('^[a-f0-9]{40}$')`.
Python's `$` (without `re.MULTILINE`) matches at the end of the string or
just before a newline at the end of the string, so the regex also accepts
forty hex characters followed by a single trailing newline. -/
def sha1Match (s : String) : Bool :=
  isHex40L s.data || (s.data.getLast? == some '\n' && isHex40L s.data.dropLast)

/-- `subscriber.save()` / `profile.save()`: update the row with the same
primary key, inserting if none exists. -/
def saveSubscriber (u : Subscriber) (l : List Subscriber) : List Subscriber :=
  if l.any (fun x => x.id == u.id) then l.map (fun x => if x.id == u.id then u else x)
  else l ++ [u]

def saveProfile (p : RegistrationProfile) (l : List RegistrationProfile) :
    List RegistrationProfile :=
  if l.any (fun x => x.id == p.id) then l.map (fun x => if x.id == p.id then p else x)
  else l ++ [p]

/-- `subscriber.delete()`: Django cascades over the foreign key, so the
subscriber row and every profile row referencing it are removed. -/
def deleteSubscriberById (i : Nat) (s : DBState) : DBState :=
  { s with subscribers := s.subscribers.filter (fun x => !(x.id == i)),
           profiles := s.profiles.filter (fun p => !(p.subscriber_id == i)) }

/-- `profile.delete()`: remove the profile row (nothing references profiles). -/
def deleteProfileById (i : Nat) (s : DBState) : DBState :=
  { s with profiles := s.profiles.filter (fun p => !(p.id == i)) }

/-- The boolean `self.activation_key == self.ACTIVATED or
(self.subscriber.date_joined + expiration_date <= datetime_now())` of
`RegistrationProfile.activation_key_expired` (models.py lines 273-275),
with the owning subscriber's `date_joined` passed in. -/
def expiredB (window now : Int) (p : RegistrationProfile) (u : Subscriber) : Bool :=
  p.activation_key == RegistrationProfile.ACTIVATED || decide (u.date_joined + window ≤ now)

/-- `RegistrationManager.activate_subscriber` (models.py lines 32-67).
The shape check comes first; the profile lookup is by `activation_key`;
`activation_key_expired` dereferences the `subscriber` foreign key (an
uncaught `DoesNotExist` if the row is gone, impossible `pk` duplicates
aside); on success the subscriber is activated, its `deactivation_key`
becomes the consumed activation key, and the profile key is reset to the
sentinel. -/
def activate_subscriber (window now : Int) (activation_key : String) (s : DBState) :
    Outcome (Option Subscriber) :=
  if sha1Match activation_key then
    match qget (fun p => p.activation_key == activation_key) s.profiles with
    | .multiple => ⟨.exn "MultipleObjectsReturned", s, 1⟩
    | .notFound => ⟨.ok none, s, 1⟩
    | .found profile =>
      if profile.activation_key == RegistrationProfile.ACTIVATED then
        ⟨.ok none, s, 1⟩
      else
        match qget (fun u => u.id == profile.subscriber_id) s.subscribers with
        | .multiple => ⟨.exn "MultipleObjectsReturned", s, 2⟩
        | .notFound => ⟨.exn "DoesNotExist", s, 2⟩
        | .found subscriber =>
          if subscriber.date_joined + window ≤ now then ⟨.ok none, s, 2⟩
          else
            let subscriber' := { subscriber with
              is_active := true, deactivation_key := profile.activation_key }
            let s1 := { s with subscribers := saveSubscriber subscriber' s.subscribers }
            let profile' := { profile with activation_key := RegistrationProfile.ACTIVATED }
            let s2 := { s1 with profiles := saveProfile profile' s1.profiles }
            ⟨.ok (some subscriber'), s2, 2⟩
  else ⟨.ok none, s, 0⟩

/-- `SubscriberManager.deactivate_subscriber` (models.py lines 168-188).
When no `RegistrationProfile` exists for the subscriber the source's
`except RegistrationProfile.DoesNotExist: pass` falls through to
`profile.delete()` with the local variable `profile` never bound, which
raises `UnboundLocalError`. -/
def deactivate_subscriber (deactivation_key : String) (s : DBState) : Outcome PyValue :=
  if sha1Match deactivation_key then
    match qget (fun u => u.deactivation_key == deactivation_key) s.subscribers with
    | .multiple => ⟨.exn "MultipleObjectsReturned", s, 1⟩
    | .notFound => ⟨.ok (.bool false), s, 1⟩
    | .found subscriber =>
      match qget (fun p => p.subscriber_id == subscriber.id) s.profiles with
      | .multiple => ⟨.exn "MultipleObjectsReturned", s, 2⟩
      | .notFound => ⟨.exn "UnboundLocalError", s, 2⟩
      | .found profile =>
        let s1 := deleteProfileById profile.id s
        let s2 := deleteSubscriberById subscriber.id s1
        ⟨.ok (.bool true), s2, 2⟩
  else ⟨.ok (.bool false), s, 0⟩

/-- Python `str.lower()` restricted to ASCII. -/
def charLower (c : Char) : Char :=
  if ('A' ≤ c && c ≤ 'Z') then Char.ofNat (c.toNat + 32) else c

def lowerStr (s : String) : String := String.mk (s.data.map charLower)

/-- Python whitespace stripped by `str.strip()`. -/
def isSpaceChar (c : Char) : Bool :=
  c == ' ' || c == '\t' || c == '\n' || c == '\r' || c == '\x0b' || c == '\x0c'

def stripL (cs : List Char) : List Char :=
  ((cs.dropWhile isSpaceChar).reverse.dropWhile isSpaceChar).reverse

/-- `SubscriberManager.normalize_email` (models.py lines 153-166): strip,
split at the last `@`, lowercase the domain part; on a missing `@` the
`ValueError` is swallowed and the original email is returned unchanged. -/
def normalize_email (email : String) : String :=
  let t := stripL email.data
  match t.reverse.dropWhile (fun c => !(c == '@')) with
  | [] => email
  | _ :: revName =>
      let revDomain := t.reverse.takeWhile (fun c => !(c == '@'))
      String.mk (revName.reverse ++ '@' :: revDomain.reverse.map charLower)

/-- `SubscriberManager.create_subscriber` (models.py lines 190-201): reject a
falsy email with `ValueError`, normalize, insert a row that is active, joined
now, and carries the default empty `deactivation_key`. -/
def create_subscriber (newId : Nat) (now : Int) (email : String) (s : DBState) :
    Outcome Subscriber :=
  if email.data == [] then ⟨.exn "ValueError", s, 0⟩
  else if s.subscribers.any (fun x => x.id == newId) then ⟨.exn "IntegrityError", s, 0⟩
  else
    let u : Subscriber := { id := newId, email := normalize_email email,
                            date_joined := now, is_active := true, deactivation_key := "" }
    ⟨.ok u, { s with subscribers := s.subscribers ++ [u] }, 0⟩

/-- `RegistrationManager.create_inactive_subscriber` (models.py lines 69-89),
wrapped in `transaction.commit_on_success`: create the subscriber, flip it
inactive and save, create the profile with the freshly generated key
(`genKey` stands for the salted SHA1 digest of `create_profile`), and send
the activation email.  `sendOk` models whether the mail transport succeeds;
on any exception the transaction rolls the database back to `s`. -/
def create_inactive_subscriber (genKey : String) (newSubId newProfId : Nat)
    (now : Int) (sendOk : Bool) (email : String) (send_email : Bool) (s : DBState) :
    Outcome Subscriber :=
  match create_subscriber newSubId now email s with
  | ⟨.exn e, _, n⟩ => ⟨.exn e, s, n⟩
  | ⟨.ok u0, s1, _⟩ =>
    let u1 := { u0 with is_active := false }
    let s2 := { s1 with subscribers := saveSubscriber u1 s1.subscribers }
    if s2.profiles.any (fun p => p.id == newProfId) then ⟨.exn "IntegrityError", s, 0⟩
    else
      let s3 := { s2 with profiles :=
        s2.profiles ++ [{ id := newProfId, subscriber_id := newSubId,
                          activation_key := genKey }] }
      if send_email then
        if sendOk then ⟨.ok u1, { s3 with outbox := s3.outbox ++ [u1.email] }, 0⟩
        else ⟨.exn "SMTPException", s, 0⟩
      else ⟨.ok u1, s3, 0⟩

/-- `RegistrationForm.clean_email` (forms.py lines 28-36): valid iff no
existing subscriber matches the email case-insensitively (`email__iexact`). -/
def clean_email_ok (email : String) (s : DBState) : Bool :=
  !(s.subscribers.any (fun u => lowerStr u.email == lowerStr email))

/-- The POST path of `_RequestPassingFormView.post` composed with the default
backend's `RegistrationView.register` (views.py lines 29-38,
backends/default/views.py lines 50-83): when the form is valid (the email is
syntactically acceptable, modelled by `syntaxOk`, and passes `clean_email`)
run `create_inactive_subscriber`; otherwise re-render the form, persisting
nothing.  `ok none` is the invalid-form response. -/
def registration_post (genKey : String) (newSubId newProfId : Nat) (now : Int)
    (sendOk : Bool) (syntaxOk : Bool) (email : String) (s : DBState) :
    Outcome (Option Subscriber) :=
  if syntaxOk && clean_email_ok email s then
    match create_inactive_subscriber genKey newSubId newProfId now sendOk email true s with
    | ⟨.ok u, s', n⟩ => ⟨.ok (some u), s', n⟩
    | ⟨.exn e, s', n⟩ => ⟨.exn e, s', n⟩
  else ⟨.ok none, s, 0⟩

/-- One iteration of the loop body of
`RegistrationManager.delete_expired_subscribers` (models.py lines 141-149):
evaluate `activation_key_expired` (which fetches the owning subscriber unless
the key is the sentinel, and whose `Subscriber.DoesNotExist` is caught by the
surrounding `except`, as is the one from `profile.subscriber` on line 144),
then delete subscriber (cascading) and profile when the subscriber is
inactive, or just the orphaned profile. -/
def sweep_one (window now : Int) (p : RegistrationProfile) (s : DBState) :
    PyEx DBState :=
  match qget (fun u => u.id == p.subscriber_id) s.subscribers with
  | .multiple => .exn "MultipleObjectsReturned"
  | .notFound => .ok (deleteProfileById p.id s)
  | .found u =>
    if expiredB window now p u && !u.is_active then
      .ok (deleteProfileById p.id (deleteSubscriberById u.id s))
    else .ok s

def sweep_go (window now : Int) : List RegistrationProfile → DBState → PyEx DBState
  | [], s => .ok s
  | p :: rest, s =>
    match sweep_one window now p s with
    | .exn e => .exn e
    | .ok s' => sweep_go window now rest s'

/-- `RegistrationManager.delete_expired_subscribers` (models.py lines
109-149): iterate over the profiles present when the loop starts,
transforming the state step by step. -/
def delete_expired_subscribers (window now : Int) (s : DBState) : PyEx DBState :=
  sweep_go window now s.profiles s

/-- `DeRegistrationView.get` of the messages backend
(backends/messages/views.py lines 117-136): call `deactivate_subscriber`,
and when the returned value is truthy emit the `subscriber_deactivated`
signal with that value as the `email` keyword argument.  The result is the
list of emitted signal payloads together with the final state. -/
def deregistration_view_get (deactivation_key : String) (s : DBState) :
    PyEx (List PyValue × DBState) :=
  match deactivate_subscriber deactivation_key s with
  | ⟨.ok v, s', _⟩ => .ok ((if v.truthy then [v] else []), s')
  | ⟨.exn e, _, _⟩ => .exn e


def keyA : String := "aaaaaaaaaaaaaaaaaaaaaaaaaaaaaaaaaaaaaaaa"

def keyB : String := "bbbbbbbbbbbbbbbbbbbbbbbbbbbbbbbbbbbbbbbb"

def keyC : String := "cccccccccccccccccccccccccccccccccccccccc"

def keyD : String := "dddddddddddddddddddddddddddddddddddddddd"

def newlineKey : String := "aaaaaaaaaaaaaaaaaaaaaaaaaaaaaaaaaaaaaaaa\n"

def emptyDB : DBState := ⟨[], [], []⟩

def subA : Subscriber :=
  { id := 1, email := "alice@example.com", date_joined := 0,
    is_active := false, deactivation_key := "" }

def profA : RegistrationProfile := { id := 1, subscriber_id := 1, activation_key := keyA }

def stateA : DBState := ⟨[subA], [profA], []⟩

def subC3 : Subscriber :=
  { id := 1, email := "dora@example.com", date_joined := 3,
    is_active := false, deactivation_key := "" }

def profC3 : RegistrationProfile := { id := 1, subscriber_id := 1, activation_key := keyD }

def stateC3 : DBState := ⟨[subC3], [profC3], []⟩

def subB : Subscriber :=
  { id := 1, email := "bob@example.com", date_joined := 0,
    is_active := true, deactivation_key := keyB }

def stateB : DBState := ⟨[subB], [], []⟩

def subC : Subscriber :=
  { id := 1, email := "carol@example.com", date_joined := 0,
    is_active := true, deactivation_key := keyC }

def profC : RegistrationProfile :=
  { id := 1, subscriber_id := 1, activation_key := RegistrationProfile.ACTIVATED }

def stateC : DBState := ⟨[subC], [profC], []⟩

def subC6 : Subscriber :=
  { id := 1, email := "Alice@Example.COM", date_joined := 0,
    is_active := true, deactivation_key := "" }

def stateC6 : DBState := ⟨[subC6], [], []⟩

def subC10 : Subscriber :=
  { id := 1, email := "fred@example.com", date_joined := 0,
    is_active := false, deactivation_key := "" }

def subC10b : Subscriber :=
  { id := 2, email := "gina@example.com", date_joined := 0,
    is_active := true, deactivation_key := keyB }

def profC10 : RegistrationProfile :=
  { id := 2, subscriber_id := 2, activation_key := RegistrationProfile.ACTIVATED }

def stateC10 : DBState := ⟨[subC10, subC10b], [profC10], []⟩

def ueC10 : Subscriber :=
  { id := 5, email := "eve@example.com", date_joined := 0,
    is_active := true, deactivation_key := "" }

def sub8 : Subscriber :=
  { id := 1, email := "hana@example.com", date_joined := 0,
    is_active := true, deactivation_key := keyC }

def sub8b : Subscriber :=
  { id := 2, email := "ivan@example.com", date_joined := 0,
    is_active := false, deactivation_key := "" }

def prof8 : RegistrationProfile :=
  { id := 1, subscriber_id := 1, activation_key := RegistrationProfile.ACTIVATED }

def prof8b : RegistrationProfile := { id := 2, subscriber_id := 2, activation_key := keyA }

def state8 : DBState := ⟨[sub8, sub8b], [prof8, prof8b], []⟩

/-- The sweep deletes the subscriber `u` exactly when some profile in
`profiles` belongs to it, its key is expired (window passed or sentinel) and
`u` is inactive. -/
def sweepTriggers (window now : Int) (profiles : List RegistrationProfile)
    (u : Subscriber) : Bool :=
  profiles.any (fun p => p.subscriber_id == u.id && expiredB window now p u && !u.is_active)

/-- The sweep keeps the profile `q` exactly when its owning subscriber still
exists and the pair is not (expired ∧ inactive); orphans are always dropped. -/
def sweepKeepsProf (window now : Int) (subs : List Subscriber)
    (q : RegistrationProfile) : Bool :=
  subs.any (fun u => u.id == q.subscriber_id && !(expiredB window now q u && !u.is_active))

def subX : Subscriber :=
  { id := 1, email := "jane@example.com", date_joined := 0,
    is_active := false, deactivation_key := "" }

def profX : RegistrationProfile :=
  { id := 1, subscriber_id := 1, activation_key := RegistrationProfile.ACTIVATED }

def stateX : DBState := ⟨[subX], [profX], []⟩

def subW2 : Subscriber :=
  { id := 2, email := "kate@example.com", date_joined := 0,
    is_active := true, deactivation_key := keyB }

def subW3 : Subscriber :=
  { id := 3, email := "liam@example.com", date_joined := 9,
    is_active := false, deactivation_key := "" }

def profW2 : RegistrationProfile :=
  { id := 2, subscriber_id := 2, activation_key := RegistrationProfile.ACTIVATED }

def profW3 : RegistrationProfile := { id := 3, subscriber_id := 3, activation_key := keyC }

def profW4 : RegistrationProfile := { id := 4, subscriber_id := 9, activation_key := keyD }

def stateW : DBState :=
  ⟨[subX, subW2, subW3], [profX, profW2, profW3, profW4], []⟩

/-! ### Helper lemmas about `qget` and list operations -/

theorem qget_of_filter_eq {α : Type} {f : α → Bool} {l : List α} {a : α}
    (h : l.filter f = [a]) : qget f l = .found a := by
  unfold qget
  rw [h]

theorem qget_of_filter_nil {α : Type} {f : α → Bool} {l : List α}
    (h : l.filter f = []) : qget f l = .notFound := by
  unfold qget
  rw [h]

theorem mem_pred_of_filter_singleton {α : Type} {f : α → Bool} {l : List α} {a : α}
    (h : l.filter f = [a]) : a ∈ l ∧ f a = true := by
  have ha : a ∈ l.filter f := by rw [h]; exact List.mem_singleton_self a
  exact ⟨List.mem_of_mem_filter ha, List.of_mem_filter ha⟩

theorem eq_of_mem_filter_singleton {α : Type} {f : α → Bool} {l : List α} {a b : α}
    (h : l.filter f = [a]) (hb : b ∈ l) (hfb : f b = true) : b = a := by
  have : b ∈ l.filter f := List.mem_filter.mpr ⟨hb, hfb⟩
  rw [h] at this
  exact List.mem_singleton.mp this

theorem map_eq_self_of_mem {α : Type} {f : α → α} {l : List α}
    (h : ∀ a ∈ l, f a = a) : l.map f = l := by
  induction l with
  | nil => rfl
  | cons x t ih =>
      simp only [List.map_cons, h x (List.mem_cons_self x t)]
      rw [ih (fun a ha => h a (List.mem_cons_of_mem x ha))]

theorem sha1Match_ACTIVATED_false : sha1Match RegistrationProfile.ACTIVATED = false := by
  decide

theorem ne_ACTIVATED_of_sha1Match {key : String} (h : sha1Match key = true) :
    key ≠ RegistrationProfile.ACTIVATED := by
  intro hk
  rw [hk, sha1Match_ACTIVATED_false] at h
  cases h

/-- Shared success-path unfolding of `activate_subscriber`: when the key has
the SHA1 shape, the profile lookup finds exactly `p`, the subscriber lookup
finds exactly `u` and the window has not closed, the code activates `u`,
stores the key as its deactivation key, consumes the profile key and returns
the activated subscriber. -/
theorem activate_success_spec (window now : Int) (key : String) (s : DBState)
    (p : RegistrationProfile) (u : Subscriber)
    (hshape : sha1Match key = true)
    (hpf : s.profiles.filter (fun q => q.activation_key == key) = [p])
    (huf : s.subscribers.filter (fun w => w.id == p.subscriber_id) = [u])
    (hexp : ¬(u.date_joined + window ≤ now)) :
    activate_subscriber window now key s =
      ⟨.ok (some { u with is_active := true, deactivation_key := key }),
       { s with
         subscribers := s.subscribers.map (fun w =>
           if w.id == u.id then { u with is_active := true, deactivation_key := key }
           else w),
         profiles := s.profiles.map (fun q =>
           if q.id == p.id then { p with activation_key := RegistrationProfile.ACTIVATED }
           else q) },
       2⟩ := by
  obtain ⟨hpmem, hpkey⟩ := mem_pred_of_filter_singleton hpf
  obtain ⟨humem, huid⟩ := mem_pred_of_filter_singleton huf
  have hkey : p.activation_key = key := by simpa using hpkey
  have hid : u.id = p.subscriber_id := by simpa using huid
  have hsent' : (key == RegistrationProfile.ACTIVATED) = false :=
    beq_eq_false_iff_ne.mpr (ne_ACTIVATED_of_sha1Match hshape)
  have hsent : (p.activation_key == RegistrationProfile.ACTIVATED) = false := by
    rw [hkey]; exact hsent'
  have hanyu : s.subscribers.any (fun x => x.id == u.id) = true :=
    List.any_eq_true.mpr ⟨u, humem, by simp⟩
  have hanyp : s.profiles.any (fun x => x.id == p.id) = true :=
    List.any_eq_true.mpr ⟨p, hpmem, by simp⟩
  simp only [activate_subscriber, hshape, if_true, qget_of_filter_eq hpf,
    qget_of_filter_eq huf, hsent, Bool.false_eq_true, if_false, if_neg hexp,
    saveSubscriber, saveProfile, hkey, hanyu, hanyp, hsent', if_pos]

/-! ### Concrete fixtures used by witnesses and counterexamples -/

/-! ### C1 -/

/-- C1: for every activation key of the 40-hex shape that identifies an
existing `RegistrationProfile` (the lookup finds exactly `p`) whose owning
`Subscriber` lookup finds exactly `u`, when the key is not expired (the
sentinel cannot pass the shape check), `activate_subscriber` sets the
subscriber active, stores the activation key as its `deactivation_key`,
replaces the profile key with `ALREADY_ACTIVATED`, persists both rows and
returns the subscriber. -/
theorem activate_valid_key_activates
    (window now : Int) (key : String) (s : DBState)
    (p : RegistrationProfile) (u : Subscriber)
    (hshape : sha1Match key = true)
    (hpf : s.profiles.filter (fun q => q.activation_key == key) = [p])
    (huf : s.subscribers.filter (fun w => w.id == p.subscriber_id) = [u])
    (hexp : ¬(u.date_joined + window ≤ now)) :
    activate_subscriber window now key s =
      ⟨.ok (some { u with is_active := true, deactivation_key := key }),
       { s with
         subscribers := s.subscribers.map (fun w =>
           if w.id == u.id then { u with is_active := true, deactivation_key := key }
           else w),
         profiles := s.profiles.map (fun q =>
           if q.id == p.id then { p with activation_key := RegistrationProfile.ACTIVATED }
           else q) },
       2⟩
    ∧ { u with is_active := true, deactivation_key := key }
        ∈ (activate_subscriber window now key s).state.subscribers
    ∧ { p with activation_key := RegistrationProfile.ACTIVATED }
        ∈ (activate_subscriber window now key s).state.profiles := by
  have h := activate_success_spec window now key s p u hshape hpf huf hexp
  obtain ⟨humem, -⟩ := mem_pred_of_filter_singleton huf
  obtain ⟨hpmem, -⟩ := mem_pred_of_filter_singleton hpf
  refine ⟨h, ?_, ?_⟩
  · rw [h]
    have hm := List.mem_map_of_mem (fun w =>
      if w.id == u.id then { u with is_active := true, deactivation_key := key }
      else w) humem
    simpa using hm
  · rw [h]
    have hm := List.mem_map_of_mem (fun q =>
      if q.id == p.id then { p with activation_key := RegistrationProfile.ACTIVATED }
      else q) hpmem
    simpa using hm

/-- C1 witness: a concrete activation within the window. -/
theorem activate_valid_key_activates_witness :
    activate_subscriber 7 0 keyA stateA =
      ⟨.ok (some { id := 1, email := "alice@example.com", date_joined := 0,
                   is_active := true, deactivation_key := keyA }),
       ⟨[{ id := 1, email := "alice@example.com", date_joined := 0,
           is_active := true, deactivation_key := keyA }],
        [{ id := 1, subscriber_id := 1, activation_key := RegistrationProfile.ACTIVATED }],
        []⟩,
       2⟩ := by
  have h := activate_valid_key_activates 7 0 keyA stateA profA subA
    (by decide) (by decide) (by decide) (by decide)
  exact h.1.trans (by decide)

/-! ### C3 -/

/-- C3: for a profile `p` whose owning subscriber lookup finds exactly `u`
with `u.date_joined + window ≤ now` (an inclusive bound), or whose
`activation_key` is the sentinel `ALREADY_ACTIVATED`,
`activate_subscriber` on that profile's key fails and leaves the state
untouched. -/
theorem activate_expired_or_sentinel_noop
    (window now : Int) (s : DBState) (p : RegistrationProfile) (u : Subscriber)
    (h : (s.profiles.filter (fun q => q.activation_key == p.activation_key) = [p]
          ∧ s.subscribers.filter (fun w => w.id == p.subscriber_id) = [u]
          ∧ u.date_joined + window ≤ now)
         ∨ p.activation_key = RegistrationProfile.ACTIVATED) :
    (activate_subscriber window now p.activation_key s).res = .ok none
    ∧ (activate_subscriber window now p.activation_key s).state = s := by
  rcases h with ⟨hpf, huf, hdate⟩ | hsent
  · by_cases hs : sha1Match p.activation_key = true
    · by_cases hx : (p.activation_key == RegistrationProfile.ACTIVATED) = true
      · constructor <;>
          simp only [activate_subscriber, hs, if_true, qget_of_filter_eq hpf, hx]
      · rw [Bool.not_eq_true] at hx
        constructor <;>
          simp only [activate_subscriber, hs, if_true, qget_of_filter_eq hpf, hx,
            Bool.false_eq_true, if_false, qget_of_filter_eq huf, if_pos hdate]
    · rw [Bool.not_eq_true] at hs
      constructor <;> simp only [activate_subscriber, hs, Bool.false_eq_true, if_false]
  · have hs : sha1Match p.activation_key = false := by
      rw [hsent]; exact sha1Match_ACTIVATED_false
    constructor <;> simp only [activate_subscriber, hs, Bool.false_eq_true, if_false]

/-- C3 witness: expiry exactly at the deadline (3 + 7 = now = 10) already
counts as expired, and nothing is mutated. -/
theorem activate_expired_or_sentinel_noop_witness :
    (activate_subscriber 7 10 profC3.activation_key stateC3).res = .ok none
    ∧ (activate_subscriber 7 10 profC3.activation_key stateC3).state = stateC3 :=
  activate_expired_or_sentinel_noop 7 10 stateC3 profC3 subC3
    (Or.inl ⟨by decide, by decide, by decide⟩)

/-! ### C9 -/

/-- C9 counterexample: the key made of forty lowercase hex characters plus a
trailing newline is not of the 40-character lowercase-hex shape (it is 41
characters long), yet Python's `$` makes `SHA1_RE.search` accept it, so both
`activate_subscriber` and `deactivate_subscriber` perform a storage lookup
for it instead of failing with none. -/
theorem shape_claim_newline_counterexample :
    isHex40L newlineKey.data = false
    ∧ newlineKey.data.length = 41
    ∧ (activate_subscriber 7 0 newlineKey emptyDB).lookups = 1
    ∧ (deactivate_subscriber newlineKey emptyDB).lookups = 1 := by
  decide

/-- C9 (amended): for every key that fails the code's shape check
`SHA1_RE.search` (forty lowercase hex characters, optionally followed by a
single trailing newline), both `activate_subscriber` and
`deactivate_subscriber` fail immediately, leave the state untouched and
perform no storage lookup. -/
theorem invalid_shape_no_lookup (window now : Int) (key : String) (s : DBState)
    (h : sha1Match key = false) :
    activate_subscriber window now key s = ⟨.ok none, s, 0⟩
    ∧ deactivate_subscriber key s = ⟨.ok (.bool false), s, 0⟩ := by
  constructor <;>
    simp only [activate_subscriber, deactivate_subscriber, h, Bool.false_eq_true, if_false]

/-- C9 witness: a malformed token is rejected with zero lookups. -/
theorem invalid_shape_no_lookup_witness :
    activate_subscriber 7 0 "not-a-valid-hex-token" emptyDB = ⟨.ok none, emptyDB, 0⟩
    ∧ deactivate_subscriber "not-a-valid-hex-token" emptyDB
        = ⟨.ok (.bool false), emptyDB, 0⟩ :=
  invalid_shape_no_lookup 7 0 "not-a-valid-hex-token" emptyDB (by decide)

/-! ### C2 -/

/-- C2: the deactivation flow does not tolerate a missing
`RegistrationProfile`.  For a subscriber whose deactivation key is valid but
whose profile row is absent, the `except RegistrationProfile.DoesNotExist:
pass` falls through to `profile.delete()` with `profile` unbound, so the
code raises `UnboundLocalError` instead of deleting the subscriber and
returning a success value. -/
theorem deactivate_missing_profile_raises :
    deactivate_subscriber keyB stateB = ⟨.exn "UnboundLocalError", stateB, 2⟩
    ∧ subB ∈ (deactivate_subscriber keyB stateB).state.subscribers := by
  decide

/-! ### C5 -/

/-- C5: a successful `deactivate_subscriber` returns the Python boolean
`True`, not the removed subscriber's email address, and consequently the
`subscriber_deactivated` signal emitted by the messages-backend
`DeRegistrationView` carries `True` as its `email` payload rather than the
removed address. -/
theorem deactivate_returns_true_not_email :
    deactivate_subscriber keyC stateC = ⟨.ok (.bool true), ⟨[], [], []⟩, 2⟩
    ∧ PyValue.bool true ≠ PyValue.str subC.email
    ∧ deregistration_view_get keyC stateC = .ok ([.bool true], ⟨[], [], []⟩) := by
  decide

/-! ### C6 -/

/-- C6: when the submitted email already belongs to an existing subscriber
under the case-insensitive `email__iexact` comparison, the registration POST
fails validation (`ok none`, the re-rendered form) and persists nothing: the
state, including the outbox, is returned unchanged. -/
theorem register_duplicate_email_rejected
    (genKey : String) (newSubId newProfId : Nat) (now : Int)
    (sendOk syntaxOk : Bool) (email : String) (s : DBState)
    (h : s.subscribers.any (fun u => lowerStr u.email == lowerStr email) = true) :
    registration_post genKey newSubId newProfId now sendOk syntaxOk email s
      = ⟨.ok none, s, 0⟩ := by
  have hclean : clean_email_ok email s = false := by
    simp only [clean_email_ok, h, Bool.not_true]
  simp only [registration_post, hclean, Bool.and_false, Bool.false_eq_true, if_false]

/-- C6 witness: re-registering `alice@example.com` against the stored
`Alice@Example.COM` is rejected case-insensitively with no state change. -/
theorem register_duplicate_email_rejected_witness :
    registration_post keyA 2 2 5 true true "alice@example.com" stateC6
      = ⟨.ok none, stateC6, 0⟩ :=
  register_duplicate_email_rejected keyA 2 2 5 true true "alice@example.com" stateC6
    (by decide)

/-! ### C7 -/

/-- C7: registering a fresh, valid email appends exactly one inactive
subscriber and exactly one profile holding the freshly generated activation
key, sends exactly one activation email, and returns the new subscriber;
and because subscriber creation, profile creation and email dispatch run
inside one transaction, a failing dispatch rolls every persisted effect
back: the returned state is the original one. -/
theorem register_fresh_email_effects
    (genKey : String) (newSubId newProfId : Nat) (now : Int)
    (email : String) (s : DBState)
    (hfresh : s.subscribers.any (fun u => lowerStr u.email == lowerStr email) = false)
    (hne : email ≠ "")
    (hsid : s.subscribers.any (fun x => x.id == newSubId) = false)
    (hpid : s.profiles.any (fun p => p.id == newProfId) = false) :
    registration_post genKey newSubId newProfId now true true email s =
      ⟨.ok (some { id := newSubId, email := normalize_email email, date_joined := now,
                   is_active := false, deactivation_key := "" }),
       ⟨s.subscribers ++ [{ id := newSubId, email := normalize_email email,
                            date_joined := now, is_active := false,
                            deactivation_key := "" }],
        s.profiles ++ [{ id := newProfId, subscriber_id := newSubId,
                         activation_key := genKey }],
        s.outbox ++ [normalize_email email]⟩,
       0⟩
    ∧ registration_post genKey newSubId newProfId now false true email s =
      ⟨.exn "SMTPException", s, 0⟩ := by
  have hclean : clean_email_ok email s = true := by
    simp only [clean_email_ok, hfresh, Bool.not_false]
  have hne' : (email.data == []) = false := by
    apply beq_eq_false_iff_ne.mpr
    intro hd
    apply hne
    cases email
    simp_all
  have hany : ((s.subscribers ++ [({ id := newSubId,
                                     email := normalize_email email,
                                     date_joined := now,
                                     is_active := true,
                                     deactivation_key := "" } : Subscriber)]).any
        (fun x => x.id == newSubId)) = true := by
    rw [List.any_append]
    simp
  have hmapid : s.subscribers.map (fun x =>
      if x.id == newSubId then
        { id := newSubId,
          email := normalize_email email,
          date_joined := now,
          is_active := false,
          deactivation_key := "" }
      else x) = s.subscribers := by
    apply map_eq_self_of_mem
    intro a ha
    have hna := List.any_eq_false.mp hsid a ha
    have hfa : (a.id == newSubId) = false := by
      cases hb : (a.id == newSubId) <;> simp_all
    simp [hfa]
  have hu0 : saveSubscriber
      { id := newSubId,
        email := normalize_email email,
        date_joined := now,
        is_active := false,
        deactivation_key := "" }
      (s.subscribers ++ [{ id := newSubId,
                           email := normalize_email email,
                           date_joined := now,
                           is_active := true,
                           deactivation_key := "" }])
      = s.subscribers ++ [{ id := newSubId,
                            email := normalize_email email,
                            date_joined := now,
                            is_active := false,
                            deactivation_key := "" }] := by
    simp only [saveSubscriber]
    rw [if_pos hany]
    rw [List.map_append, hmapid]
    simp
  constructor <;>
  · simp only [registration_post, hclean, Bool.and_self, if_true,
      create_inactive_subscriber, create_subscriber, hne', Bool.false_eq_true, if_false,
      hsid, hpid, if_true, hu0]

/-- C7 witness: registering a fresh address on an empty database creates the
inactive subscriber and its profile, sends one activation email, and the
dispatch-failure run leaves the database empty. -/
theorem register_fresh_email_effects_witness :
    registration_post keyB 1 1 0 true true "Bob@Example.COM" emptyDB =
      ⟨.ok (some { id := 1, email := "Bob@example.com", date_joined := 0,
                   is_active := false, deactivation_key := "" }),
       ⟨[{ id := 1, email := "Bob@example.com", date_joined := 0,
           is_active := false, deactivation_key := "" }],
        [{ id := 1, subscriber_id := 1, activation_key := keyB }],
        ["Bob@example.com"]⟩,
       0⟩
    ∧ registration_post keyB 1 1 0 false true "Bob@Example.COM" emptyDB =
      ⟨.exn "SMTPException", emptyDB, 0⟩ := by
  have h := register_fresh_email_effects keyB 1 1 0 "Bob@Example.COM" emptyDB
    (by decide) (by decide) (by decide) (by decide)
  exact ⟨h.1.trans (by decide), h.2.trans (by decide)⟩

/-! ### C10 -/

theorem qget_found_imp {α : Type} {f : α → Bool} {l : List α} {a : α}
    (h : qget f l = .found a) : a ∈ l ∧ f a = true := by
  unfold qget at h
  rcases hf : l.filter f with - | ⟨x, - | ⟨y, t⟩⟩ <;> rw [hf] at h
  · cases h
  · injection h with hx
    subst hx
    exact mem_pred_of_filter_singleton hf
  · cases h

/-- C10: the deactivation workflow can only ever delete a subscriber that
completed activation.  A subscriber whose `deactivation_key` still holds the
empty-string column default (as every subscriber created by
`create_subscriber` does, including the single-step simple backend's) is
still present after any `deactivate_subscriber` call, because the empty
string can never equal a key that passed the SHA1 shape check; and every
subscriber returned by `create_subscriber` carries that empty default. -/
theorem deactivate_never_removes_default_key_subscriber :
    (∀ (key : String) (s : DBState) (u : Subscriber),
      u ∈ s.subscribers →
      u.deactivation_key = "" →
      (∀ w ∈ s.subscribers, w.id = u.id → w = u) →
      u ∈ (deactivate_subscriber key s).state.subscribers)
    ∧ (∀ (newId : Nat) (now : Int) (email : String) (s : DBState)
        (u : Subscriber) (st : DBState) (n : Nat),
        create_subscriber newId now email s = ⟨.ok u, st, n⟩ →
        u.deactivation_key = "") := by
  constructor
  · intro key s u humem hkey huniq
    by_cases hs : sha1Match key = true
    · have hkne : key ≠ "" := by
        intro h0
        rw [h0] at hs
        exact absurd hs (by decide)
      unfold deactivate_subscriber
      rw [hs, if_pos rfl]
      rcases hq : qget (fun w => w.deactivation_key == key) s.subscribers with w | - | - <;>
        simp only [hq]
      · obtain ⟨hwmem, hwkey⟩ := qget_found_imp hq
        have hwkey' : w.deactivation_key = key := by simpa using hwkey
        have hwu : w ≠ u := by
          intro hwu
          rw [hwu, hkey] at hwkey'
          exact hkne hwkey'.symm
        rcases hq2 : qget (fun p => p.subscriber_id == w.id) s.profiles with pr | - | - <;>
          simp only [hq2]
        · simp only [deleteSubscriberById, deleteProfileById]
          refine List.mem_filter.mpr ⟨humem, ?_⟩
          have hne2 : u.id ≠ w.id := by
            intro hid
            exact hwu (huniq w hwmem hid.symm)
          simp [hne2]
        · exact humem
        · exact humem
      · exact humem
      · exact humem
    · rw [Bool.not_eq_true] at hs
      simp only [deactivate_subscriber, hs, Bool.false_eq_true, if_false]
      exact humem
  · intro newId now email s u st n h
    unfold create_subscriber at h
    split at h
    · cases h
    · split at h
      · cases h
      · injection h with hres
        injection hres with hu
        rw [← hu]

/-- C10 witness: deactivating with a valid key removes only the activated
subscriber; the never-activated one with the empty default key survives, and
a freshly created subscriber indeed carries the empty default. -/
theorem deactivate_never_removes_default_key_subscriber_witness :
    subC10 ∈ (deactivate_subscriber keyB stateC10).state.subscribers
    ∧ ueC10.deactivation_key = "" :=
  ⟨deactivate_never_removes_default_key_subscriber.1 keyB stateC10 subC10
      (by decide) (by decide) (by decide),
   deactivate_never_removes_default_key_subscriber.2 5 0 "eve@example.com" emptyDB
      ueC10 ⟨[ueC10], [], []⟩ 0 (by decide)⟩

/-! ### C8 -/

/-- Case analysis for `activate_subscriber`: every run either leaves the
state untouched, or is the success run, in which case the lookups pin down
the profile and subscriber that get rewritten. -/
theorem activate_cases (window now : Int) (key : String) (s : DBState) :
    (activate_subscriber window now key s).state = s
    ∨ ∃ p u, sha1Match key = true
        ∧ qget (fun q => q.activation_key == key) s.profiles = .found p
        ∧ (p.activation_key == RegistrationProfile.ACTIVATED) = false
        ∧ qget (fun w => w.id == p.subscriber_id) s.subscribers = .found u
        ∧ ¬(u.date_joined + window ≤ now)
        ∧ (activate_subscriber window now key s).state =
            { s with
              subscribers := saveSubscriber
                { u with is_active := true, deactivation_key := p.activation_key }
                s.subscribers,
              profiles := saveProfile
                { p with activation_key := RegistrationProfile.ACTIVATED }
                s.profiles } := by
  by_cases hs : sha1Match key = true
  · rcases hq : qget (fun q => q.activation_key == key) s.profiles with p | - | -
    · by_cases hsent : (p.activation_key == RegistrationProfile.ACTIVATED) = true
      · left
        simp only [activate_subscriber, hs, if_true, hq, hsent]
      · rw [Bool.not_eq_true] at hsent
        rcases hq2 : qget (fun w => w.id == p.subscriber_id) s.subscribers with u | - | -
        · by_cases hdate : u.date_joined + window ≤ now
          · left
            simp only [activate_subscriber, hs, if_true, hq, hsent, Bool.false_eq_true,
              if_false, hq2, if_pos hdate]
          · right
            refine ⟨p, u, hs, hq, hsent, hq2, hdate, ?_⟩
            simp only [activate_subscriber, hs, if_true, hq, hsent, Bool.false_eq_true,
              if_false, hq2, if_neg hdate]
        · left
          simp only [activate_subscriber, hs, if_true, hq, hsent, Bool.false_eq_true,
            if_false, hq2]
        · left
          simp only [activate_subscriber, hs, if_true, hq, hsent, Bool.false_eq_true,
            if_false, hq2]
    · left
      simp only [activate_subscriber, hs, if_true, hq]
    · left
      simp only [activate_subscriber, hs, if_true, hq]
  · left
    rw [Bool.not_eq_true] at hs
    simp only [activate_subscriber, hs, Bool.false_eq_true, if_false]

/-- C8: the sentinel is permanent.  (i) `ALREADY_ACTIVATED` never passes the
SHA1 shape check; (ii) in any state, a profile whose key is the sentinel
(with primary key and foreign key not shared, as the schema enforces)
survives every `activate_subscriber` call unchanged, and so does the record
of its owning subscriber — no activate call can flip that subscriber or
restore a valid key; (iii) after a successful `activate_subscriber key`,
running `activate_subscriber` again with the same key fails. -/
theorem sentinel_profile_never_reactivatable :
    sha1Match RegistrationProfile.ACTIVATED = false
    ∧ (∀ (window now : Int) (key : String) (s : DBState) (p : RegistrationProfile),
        p ∈ s.profiles →
        p.activation_key = RegistrationProfile.ACTIVATED →
        (∀ q ∈ s.profiles, q.id = p.id → q = p) →
        (∀ q ∈ s.profiles, q.subscriber_id = p.subscriber_id → q = p) →
        p ∈ (activate_subscriber window now key s).state.profiles
        ∧ ∀ u ∈ s.subscribers, u.id = p.subscriber_id →
            u ∈ (activate_subscriber window now key s).state.subscribers)
    ∧ (∀ (window now : Int) (key : String) (s : DBState)
         (p : RegistrationProfile) (u : Subscriber),
        sha1Match key = true →
        s.profiles.filter (fun q => q.activation_key == key) = [p] →
        s.subscribers.filter (fun w => w.id == p.subscriber_id) = [u] →
        ¬(u.date_joined + window ≤ now) →
        (activate_subscriber window now key
          (activate_subscriber window now key s).state).res = .ok none) := by
  refine ⟨sha1Match_ACTIVATED_false, ?_, ?_⟩
  · intro window now key s p hp hpk hpid hpfk
    rcases activate_cases window now key s with hstate |
      ⟨p2, u2, hs2, hq2, hsent2, hu2, hd2, heq⟩
    · rw [hstate]
      exact ⟨hp, fun u hu _ => hu⟩
    · obtain ⟨hp2mem, hp2key⟩ := qget_found_imp hq2
      obtain ⟨hu2mem, hu2id⟩ := qget_found_imp hu2
      have hp2ne : p2 ≠ p := by
        intro hx
        rw [hx, hpk] at hsent2
        simp at hsent2
      have hp2id : p2.id ≠ p.id := by
        intro hx
        exact hp2ne (hpid p2 hp2mem hx)
      have hp2fk : p2.subscriber_id ≠ p.subscriber_id := by
        intro hx
        exact hp2ne (hpfk p2 hp2mem hx)
      have hu2id' : u2.id = p2.subscriber_id := by simpa using hu2id
      rw [heq]
      constructor
      · have hany : (s.profiles.any (fun x => x.id == p2.id)) = true :=
          List.any_eq_true.mpr ⟨p2, hp2mem, by simp⟩
        simp only [saveProfile, hany, if_pos]
        have hm := List.mem_map_of_mem (fun q =>
          if q.id == ({ p2 with activation_key := RegistrationProfile.ACTIVATED }
                : RegistrationProfile).id then
            { p2 with activation_key := RegistrationProfile.ACTIVATED }
          else q) hp
        simpa [hp2id.symm] using hm
      · intro u hu huid
        have hany : (s.subscribers.any (fun x => x.id == u2.id)) = true :=
          List.any_eq_true.mpr ⟨u2, hu2mem, by simp⟩
        simp only [saveSubscriber, hany, if_pos]
        have hune : u.id ≠ u2.id := by
          rw [huid, hu2id']
          exact fun hx => hp2fk hx.symm
        have hm := List.mem_map_of_mem (fun x =>
          if x.id == ({ u2 with is_active := true, deactivation_key := p2.activation_key }
                : Subscriber).id then
            { u2 with is_active := true, deactivation_key := p2.activation_key }
          else x) hu
        simpa [hune] using hm
  · intro window now key s p u hs hpf huf hexp
    have heq := activate_success_spec window now key s p u hs hpf huf hexp
    have hstate : (activate_subscriber window now key s).state =
        { s with
          subscribers := s.subscribers.map (fun w =>
            if w.id == u.id then { u with is_active := true, deactivation_key := key }
            else w),
          profiles := s.profiles.map (fun q =>
            if q.id == p.id then { p with activation_key := RegistrationProfile.ACTIVATED }
            else q) } := by
      rw [heq]
    rw [hstate]
    have hfilter : ((s.profiles.map (fun q =>
        if q.id == p.id then { p with activation_key := RegistrationProfile.ACTIVATED }
        else q)).filter (fun q => q.activation_key == key)) = [] := by
      rw [List.filter_eq_nil_iff]
      intro x hx
      obtain ⟨q, hqmem, hqeq⟩ := List.mem_map.mp hx
      intro hcontra
      by_cases hcase : (q.id == p.id) = true
      · rw [if_pos hcase] at hqeq
        rw [← hqeq] at hcontra
        have hAk : RegistrationProfile.ACTIVATED = key := by simpa using hcontra
        exact ne_ACTIVATED_of_sha1Match hs hAk.symm
      · rw [Bool.not_eq_true] at hcase
        rw [hcase] at hqeq
        have hqeq2 : q = x := by simpa using hqeq
        rw [← hqeq2] at hcontra
        have hqkey : q.activation_key = key := by simpa using hcontra
        have hqp : q = p := eq_of_mem_filter_singleton hpf hqmem (by simp [hqkey])
        rw [hqp] at hcase
        simp at hcase
    simp only [activate_subscriber, hs, if_true, qget_of_filter_nil hfilter]

/-- C8 witness: in a state holding a sentinel profile and a fresh pair, an
activate call leaves the sentinel profile and its subscriber untouched, and
repeating a successful activation fails. -/
theorem sentinel_profile_never_reactivatable_witness :
    prof8 ∈ (activate_subscriber 7 0 keyA state8).state.profiles
    ∧ sub8 ∈ (activate_subscriber 7 0 keyA state8).state.subscribers
    ∧ (activate_subscriber 7 0 keyA
        (activate_subscriber 7 0 keyA state8).state).res = .ok none := by
  have h2 := sentinel_profile_never_reactivatable.2.1 7 0 keyA state8 prof8
    (by decide) (by decide) (by decide) (by decide)
  exact ⟨h2.1, h2.2 sub8 (by decide) (by decide),
    sentinel_profile_never_reactivatable.2.2 7 0 keyA state8 prof8b sub8b
      (by decide) (by decide) (by decide) (by decide)⟩

/-! ### C4 -/

theorem pairwise_key_eq {α : Type} (P : α → Nat) {l : List α}
    (h : l.Pairwise (fun a b => P a ≠ P b)) :
    ∀ a ∈ l, ∀ b ∈ l, P a = P b → a = b := by
  induction l with
  | nil => intro a ha; cases ha
  | cons x t ih =>
      rw [List.pairwise_cons] at h
      intro a ha b hb hab
      rcases List.mem_cons.mp ha with rfl | ha' <;> rcases List.mem_cons.mp hb with rfl | hb'
      · rfl
      · exact absurd hab (h.1 b hb')
      · exact absurd hab.symm (h.1 a ha')
      · exact ih h.2 a ha' b hb' hab

theorem filter_beq_pairwise {α : Type} (P : α → Nat) {l : List α}
    (h : l.Pairwise (fun a b => P a ≠ P b)) (x : Nat) :
    l.filter (fun a => P a == x) = []
    ∨ ∃ a, a ∈ l ∧ P a = x ∧ l.filter (fun a => P a == x) = [a] := by
  induction l with
  | nil => left; rfl
  | cons b t ih =>
      rw [List.pairwise_cons] at h
      by_cases hb : (P b == x) = true
      · right
        have hPb : P b = x := by simpa using hb
        have ht : t.filter (fun a => P a == x) = [] := by
          rw [List.filter_eq_nil_iff]
          intro c hc hcx
          have hPc : P c = x := by simpa using hcx
          exact h.1 c hc (hPb.trans hPc.symm)
        exact ⟨b, List.mem_cons_self b t, hPb,
          by rw [List.filter_cons, if_pos hb, ht]⟩
      · rw [Bool.not_eq_true] at hb
        rcases ih h.2 with hnil | ⟨a, hat, hPa, heq⟩
        · left
          simp only [List.filter_cons, hb, Bool.false_eq_true, if_false]
          exact hnil
        · right
          refine ⟨a, List.mem_cons_of_mem b hat, hPa, ?_⟩
          simp only [List.filter_cons, hb, Bool.false_eq_true, if_false]
          exact heq

theorem any_filter_of_imp {α : Type} {f g : α → Bool} {l : List α}
    (h : ∀ a ∈ l, g a = true → f a = true) :
    (l.filter f).any g = l.any g := by
  induction l with
  | nil => rfl
  | cons x t ih =>
      have ht := ih (fun a ha => h a (List.mem_cons_of_mem x ha))
      by_cases hf : f x = true
      · simp [List.filter_cons, hf, List.any_cons, ht]
      · have hg : g x = false := by
          cases hgx : g x
          · rfl
          · exact absurd (h x (List.mem_cons_self x t) hgx) hf
        rw [Bool.not_eq_true] at hf
        simp only [List.filter_cons, hf, Bool.false_eq_true, if_false, List.any_cons,
          hg, ht, Bool.false_or]

/-- Full characterization of the sweep loop: starting from any state `cur`
whose subscriber ids are distinct and such that distinct profiles of the
worklist `l` never share a primary key or a subscriber with a stored
profile, the loop deletes exactly the triggered subscribers and the
non-kept worklist profiles. -/
theorem sweep_go_spec (window now : Int) (l : List RegistrationProfile) :
    ∀ (cur : DBState),
    cur.subscribers.Pairwise (fun a b => a.id ≠ b.id) →
    (∀ p ∈ l, ∀ q ∈ cur.profiles,
      q.subscriber_id = p.subscriber_id ∨ q.id = p.id → q = p) →
    sweep_go window now l cur =
      .ok ⟨cur.subscribers.filter (fun u => !(sweepTriggers window now l u)),
           cur.profiles.filter (fun q =>
             !(l.any (fun r => r == q)
               && !(sweepKeepsProf window now cur.subscribers q))),
           cur.outbox⟩ := by
  induction l with
  | nil =>
      intro cur hsub h4
      simp [sweep_go, sweepTriggers, sweepKeepsProf]
  | cons p rest ih =>
      intro cur hsub h4
      have h4p := h4 p (List.mem_cons_self p rest)
      have h4rest : ∀ r ∈ rest, ∀ q ∈ cur.profiles,
          q.subscriber_id = r.subscriber_id ∨ q.id = r.id → q = r :=
        fun r hr => h4 r (List.mem_cons_of_mem p hr)
      rcases filter_beq_pairwise Subscriber.id hsub p.subscriber_id with
        hnil | ⟨u, humem, huid, hufilter⟩
      · -- the owning subscriber does not exist: the orphan profile is deleted
        have hq : qget (fun w => w.id == p.subscriber_id) cur.subscribers = .notFound :=
          qget_of_filter_nil hnil
        have hstep : sweep_go window now (p :: rest) cur =
            sweep_go window now rest (deleteProfileById p.id cur) := by
          simp only [sweep_go, sweep_one, hq]
        rw [hstep, ih (deleteProfileById p.id cur) hsub
          (fun r hr q hq' => h4rest r hr q (List.mem_of_mem_filter hq'))]
        simp only [deleteProfileById]
        have hsubs_eq : cur.subscribers.filter
              (fun x => !(sweepTriggers window now rest x))
            = cur.subscribers.filter
              (fun x => !(sweepTriggers window now (p :: rest) x)) := by
          apply List.filter_congr
          intro x hx
          have hxid : (x.id == p.subscriber_id) = false := by
            cases hbx : (x.id == p.subscriber_id)
            · rfl
            · exact absurd hbx (List.filter_eq_nil_iff.mp hnil x hx)
          have hpx : (p.subscriber_id == x.id) = false := by
            rw [beq_eq_false_iff_ne] at hxid ⊢
            exact fun hc => hxid hc.symm
          simp [sweepTriggers, List.any_cons, hpx]
        have hprofs_eq : (cur.profiles.filter (fun q => !(q.id == p.id))).filter
              (fun q => !(rest.any (fun r => r == q)
                && !(sweepKeepsProf window now cur.subscribers q)))
            = cur.profiles.filter (fun q =>
                !((p :: rest).any (fun r => r == q)
                  && !(sweepKeepsProf window now cur.subscribers q))) := by
          rw [List.filter_filter]
          apply List.filter_congr
          intro q hq'
          by_cases hqp : q = p
          · subst hqp
            have hkeep : sweepKeepsProf window now cur.subscribers q = false := by
              rw [sweepKeepsProf, List.any_eq_false]
              intro u' hu' hc
              rw [Bool.and_eq_true] at hc
              exact List.filter_eq_nil_iff.mp hnil u' hu' hc.1
            simp [List.any_cons, hkeep]
          · have hqid : (q.id == p.id) = false := by
              rw [beq_eq_false_iff_ne]
              intro hc
              exact hqp (h4p q hq' (Or.inr hc))
            have hpq : (p == q) = false := by
              rw [beq_eq_false_iff_ne]
              exact fun hc => hqp hc.symm
            simp [List.any_cons, hqid, hpq]
        rw [hsubs_eq, hprofs_eq]
      · -- the owning subscriber exists and is unique
        have hq : qget (fun w => w.id == p.subscriber_id) cur.subscribers = .found u :=
          qget_of_filter_eq hufilter
        by_cases hcond : (expiredB window now p u && !u.is_active) = true
        · -- expired and inactive: both rows are deleted
          rw [Bool.and_eq_true] at hcond
          obtain ⟨hexp2, hact⟩ := hcond
          have hstep : sweep_go window now (p :: rest) cur =
              sweep_go window now rest
                (deleteProfileById p.id (deleteSubscriberById u.id cur)) := by
            simp only [sweep_go, sweep_one, hq, hexp2, hact, Bool.and_self, if_pos]
          have hsubB : (deleteProfileById p.id
                (deleteSubscriberById u.id cur)).subscribers.Pairwise
                  (fun a b => a.id ≠ b.id) :=
            List.Pairwise.sublist (List.filter_sublist _) hsub
          have h4B : ∀ r ∈ rest, ∀ q ∈ (deleteProfileById p.id
                (deleteSubscriberById u.id cur)).profiles,
              q.subscriber_id = r.subscriber_id ∨ q.id = r.id → q = r :=
            fun r hr q hq' => h4rest r hr q
              (List.mem_of_mem_filter (List.mem_of_mem_filter hq'))
          rw [hstep, ih _ hsubB h4B]
          simp only [deleteProfileById, deleteSubscriberById]
          have hsubs_eq : (cur.subscribers.filter (fun x => !(x.id == u.id))).filter
                (fun x => !(sweepTriggers window now rest x))
              = cur.subscribers.filter
                (fun x => !(sweepTriggers window now (p :: rest) x)) := by
            rw [List.filter_filter]
            apply List.filter_congr
            intro x hx
            by_cases hxu : x.id = u.id
            · have hxeq : x = u := pairwise_key_eq Subscriber.id hsub x hx u humem hxu
              subst hxeq
              have hbid : (p.subscriber_id == x.id) = true := by
                rw [beq_iff_eq, huid]
              simp [sweepTriggers, List.any_cons, hbid, hexp2, hact]
            · have hxu' : (x.id == u.id) = false := beq_eq_false_iff_ne.mpr hxu
              have hbid : (p.subscriber_id == x.id) = false := by
                rw [beq_eq_false_iff_ne, ← huid]
                exact fun hc => hxu hc.symm
              simp [sweepTriggers, List.any_cons, hbid, hxu']
          have hprofs_eq : (((cur.profiles.filter
                  (fun r => !(r.subscriber_id == u.id))).filter
                (fun r => !(r.id == p.id))).filter
                (fun q => !(rest.any (fun r => r == q)
                  && !(sweepKeepsProf window now
                        (cur.subscribers.filter (fun x => !(x.id == u.id))) q))))
              = cur.profiles.filter (fun q =>
                  !((p :: rest).any (fun r => r == q)
                    && !(sweepKeepsProf window now cur.subscribers q))) := by
            rw [List.filter_filter, List.filter_filter]
            apply List.filter_congr
            intro q hq'
            by_cases hqp : q = p
            · subst hqp
              have hsid : (q.subscriber_id == u.id) = true := by
                rw [beq_iff_eq]
                exact huid.symm
              have hkeep : sweepKeepsProf window now cur.subscribers q = false := by
                rw [sweepKeepsProf, List.any_eq_false]
                intro u' hu' hc
                rw [Bool.and_eq_true] at hc
                have hu'id : u'.id = u.id := by
                  have h1 : u'.id = q.subscriber_id := by simpa using hc.1
                  rw [h1, ← huid]
                have hu'eq : u' = u := pairwise_key_eq Subscriber.id hsub u' hu' u humem hu'id
                rw [hu'eq] at hc
                have h2 := hc.2
                rw [hexp2, hact] at h2
                simp at h2
              simp [List.any_cons, hsid, hkeep]
            · have hqid : (q.id == p.id) = false := by
                rw [beq_eq_false_iff_ne]
                intro hc
                exact hqp (h4p q hq' (Or.inr hc))
              have hqsid : (q.subscriber_id == u.id) = false := by
                rw [beq_eq_false_iff_ne, huid]
                intro hc
                exact hqp (h4p q hq' (Or.inl hc))
              have hpq : (p == q) = false := by
                rw [beq_eq_false_iff_ne]
                exact fun hc => hqp hc.symm
              have hkeq : sweepKeepsProf window now
                    (cur.subscribers.filter (fun x => !(x.id == u.id))) q
                  = sweepKeepsProf window now cur.subscribers q := by
                rw [sweepKeepsProf, sweepKeepsProf]
                apply any_filter_of_imp
                intro a ha hga
                rw [Bool.and_eq_true] at hga
                have haid : a.id = q.subscriber_id := by simpa using hga.1
                have hane : (a.id == u.id) = false := by
                  rw [beq_eq_false_iff_ne, haid, huid]
                  intro hc
                  exact hqp (h4p q hq' (Or.inl hc))
                simp [hane]
              simp [List.any_cons, hqid, hqsid, hpq, hkeq]
          rw [hsubs_eq, hprofs_eq]
        · -- found but not (expired and inactive): nothing is deleted
          rw [Bool.not_eq_true] at hcond
          have hstep : sweep_go window now (p :: rest) cur =
              sweep_go window now rest cur := by
            simp only [sweep_go, sweep_one, hq, hcond, Bool.false_eq_true, if_false]
          rw [hstep, ih cur hsub h4rest]
          have hsubs_eq : cur.subscribers.filter
                (fun x => !(sweepTriggers window now rest x))
              = cur.subscribers.filter
                (fun x => !(sweepTriggers window now (p :: rest) x)) := by
            apply List.filter_congr
            intro x hx
            by_cases hxu : x.id = u.id
            · have hbid : (p.subscriber_id == x.id) = true := by
                rw [beq_iff_eq, hxu]
                exact huid.symm
              have hxeq : x = u := pairwise_key_eq Subscriber.id hsub x hx u humem hxu
              have hcx : (expiredB window now p x && !x.is_active) = false := by
                rw [hxeq]
                exact hcond
              simp [sweepTriggers, List.any_cons, hbid, hcx]
            · have hbid : (p.subscriber_id == x.id) = false := by
                rw [beq_eq_false_iff_ne, ← huid]
                exact fun hc => hxu hc.symm
              simp [sweepTriggers, List.any_cons, hbid]
          have hprofs_eq : cur.profiles.filter (fun q =>
                !(rest.any (fun r => r == q)
                  && !(sweepKeepsProf window now cur.subscribers q)))
              = cur.profiles.filter (fun q =>
                !((p :: rest).any (fun r => r == q)
                  && !(sweepKeepsProf window now cur.subscribers q))) := by
            apply List.filter_congr
            intro q hq'
            by_cases hqp : q = p
            · have hkeep : sweepKeepsProf window now cur.subscribers q = true := by
                rw [sweepKeepsProf, List.any_eq_true]
                refine ⟨u, humem, ?_⟩
                rw [Bool.and_eq_true]
                refine ⟨?_, ?_⟩
                · rw [beq_iff_eq, hqp]
                  exact huid
                · rw [hqp]
                  simp [hcond]
              simp [List.any_cons, hkeep]
            · have hpq : (p == q) = false := by
                rw [beq_eq_false_iff_ne]
                exact fun hc => hqp hc.symm
              simp [List.any_cons, hpq]
          rw [hsubs_eq, hprofs_eq]

/-- C4 counterexample: with `window = 7` and `now = 0` the subscriber's
activation window has NOT expired (`0 + 7 ≤ 0` is false), the subscriber is
inactive, yet `delete_expired_subscribers` deletes both rows, because the
profile's key is the sentinel and `activation_key_expired` also counts the
sentinel as expired. -/
theorem sweep_window_claim_counterexample :
    ¬(subX.date_joined + 7 ≤ 0)
    ∧ subX.is_active = false
    ∧ subX ∈ stateX.subscribers
    ∧ profX ∈ stateX.profiles
    ∧ delete_expired_subscribers 7 0 stateX = .ok ⟨[], [], []⟩ := by
  decide

/-- C4 (amended): under the schema's uniqueness guarantees (distinct
subscriber ids, distinct profile ids, one profile per subscriber),
`delete_expired_subscribers` deletes exactly the subscriber/profile pairs
whose activation key is expired — window passed or key already consumed
(sentinel) — with an inactive subscriber, plus the orphaned profiles whose
subscriber no longer exists; every active subscriber and every inactive
subscriber with no expired-key profile survives the sweep unchanged, and the
sweep never raises. -/
theorem sweep_exact_characterization (window now : Int) (s : DBState)
    (hsub : s.subscribers.Pairwise (fun a b => a.id ≠ b.id))
    (hpid : s.profiles.Pairwise (fun a b => a.id ≠ b.id))
    (hpfk : s.profiles.Pairwise (fun a b => a.subscriber_id ≠ b.subscriber_id)) :
    delete_expired_subscribers window now s =
      .ok ⟨s.subscribers.filter (fun u => !(sweepTriggers window now s.profiles u)),
           s.profiles.filter (fun q => sweepKeepsProf window now s.subscribers q),
           s.outbox⟩ := by
  have h4 : ∀ p ∈ s.profiles, ∀ q ∈ s.profiles,
      q.subscriber_id = p.subscriber_id ∨ q.id = p.id → q = p := by
    intro p hp q hq hor
    rcases hor with h | h
    · exact pairwise_key_eq RegistrationProfile.subscriber_id hpfk q hq p hp h
    · exact pairwise_key_eq RegistrationProfile.id hpid q hq p hp h
  have h := sweep_go_spec window now s.profiles s hsub h4
  rw [delete_expired_subscribers, h]
  have hprofs : s.profiles.filter (fun q =>
        !(s.profiles.any (fun r => r == q)
          && !(sweepKeepsProf window now s.subscribers q)))
      = s.profiles.filter (fun q => sweepKeepsProf window now s.subscribers q) := by
    apply List.filter_congr
    intro q hq
    have hany : s.profiles.any (fun r => r == q) = true :=
      List.any_eq_true.mpr ⟨q, hq, by simp⟩
    simp [hany, Bool.not_not]
  rw [hprofs]

/-- C4 witness: the expired inactive pair and the orphan profile are
deleted; the active subscriber and the not-yet-expired inactive subscriber
survive with their profiles. -/
theorem sweep_exact_characterization_witness :
    delete_expired_subscribers 7 10 stateW =
      .ok ⟨[subW2, subW3], [profW2, profW3], []⟩ :=
  (sweep_exact_characterization 7 10 stateW (by decide) (by decide) (by decide)).trans
    (by decide)
